import Mathlib

/-!
Verification of the SLR-Backend paper-filtering service.

The definitions below are a shallow embedding of the Python sources:
  * `src/services/papers/filter_service.py` (facet extraction and filtering),
  * `src/services/papers/data_service.py`  (fetching and formatting),
  * `src/api/papers/routes.py`             (pagination and the HTTP routes).
Regular-expression searches from the source are embedded as explicit
character-list scanners with the same semantics on the fixed patterns the
code uses.
-/

namespace SLR

/-! ## Characters and low-level scanning helpers -/

/-- The single-quote character, written via its code point. -/
def singleQuoteChar : Char := Char.ofNat 39

/-- The double-quote character, written via its code point. -/
def doubleQuoteChar : Char := Char.ofNat 34

/-- The regex character class for a quote, as used in the source patterns. -/
def isQuote (c : Char) : Bool := c == singleQuoteChar || c == doubleQuoteChar

/-- Python regex whitespace class over ASCII: space, tab, newline,
vertical tab, form feed, carriage return. -/
def isPySpace (c : Char) : Bool :=
  c == ' ' || c == Char.ofNat 9 || c == Char.ofNat 10 ||
  c == Char.ofNat 11 || c == Char.ofNat 12 || c == Char.ofNat 13

/-- Strip a literal character sequence from the front of a list, returning
the remainder on success. -/
def stripLit : List Char → List Char → Option (List Char)
  | [], cs => some cs
  | _ :: _, [] => none
  | p :: ps, c :: cs => if c = p then stripLit ps cs else none

/-- Consume one quote character (either style), as the regex class does. -/
def eatQuote : List Char → Option (List Char)
  | [] => none
  | c :: cs => if isQuote c then some cs else none

/-- Consume a colon followed by any run of whitespace.  The source pattern
requires the colon to follow the key quote immediately and only tolerates
whitespace after the colon. -/
def eatColonSpaces : List Char → Option (List Char)
  | ':' :: cs => some (cs.dropWhile isPySpace)
  | _ => none

/-- Test the full key/value pattern
quote key quote colon whitespace* quote value quote
at the head of the character list.  This is the anchored form of the regex
patterns used throughout `filter_service.py`. -/
def matchKVAt (key val : List Char) (cs : List Char) : Bool :=
  (((((((eatQuote cs).bind (stripLit key)).bind eatQuote).bind
      eatColonSpaces).bind eatQuote).bind (stripLit val)).bind eatQuote).isSome

/-- Unanchored search for the key/value pattern, trying every start
position, exactly as re.search does for these patterns. -/
def searchKVAux (key val : List Char) : List Char → Bool
  | [] => false
  | c :: cs => matchKVAt key val (c :: cs) || searchKVAux key val cs

/-- String-level wrapper for the key/value pattern search. -/
def searchKV (key val : String) (s : String) : Bool :=
  searchKVAux key.data val.data s.data

/-- Substring test at a fixed position, used to model the Python `in`
operator on strings. -/
def subAux (needle : List Char) : List Char → Bool
  | [] => (stripLit needle []).isSome
  | c :: cs => (stripLit needle (c :: cs)).isSome || subAux needle cs

/-- Python substring containment: `needle in hay`. -/
def isSubstring (needle hay : String) : Bool := subAux needle.data hay.data

/-! ## Facet extraction (FilterService extract functions) -/

/-- Phase pattern table from `_extract_phases`. -/
def phaseTable : List (String × String) :=
  [("P1", "Phase I (P1)"),
   ("P2", "Phase II (P2)"),
   ("P3", "Phase III (P3)"),
   ("P4", "Phase IV (P4)")]

/-- `_extract_phases`: collect the phase labels whose code pattern matches
the raw blob. -/
def extractPhases (output : String) : List String :=
  phaseTable.filterMap fun p =>
    if searchKV "code" p.1 output then some p.2 else none

/-- `_matches_study_types`: for each selected label, substring dispatch on
the label followed by the single-code pattern test on the blob. -/
def matchesStudyTypes (output : String) (sts : List String) : Bool :=
  sts.any fun st =>
    (isSubstring "RCT" st && searchKV "code" "RCT" output) ||
    (isSubstring "Case Report" st && searchKV "code" "CR" output) ||
    (isSubstring "Case Series" st && searchKV "code" "CS" output) ||
    (isSubstring "Cross-Sectional" st && searchKV "code" "XS" output) ||
    (isSubstring "Case-Control" st && searchKV "code" "CCS" output) ||
    (isSubstring "Cohort" st && searchKV "code" "COH" output) ||
    (isSubstring "Systematic Review" st && searchKV "code" "SR" output) ||
    (isSubstring "Meta-Analysis" st && searchKV "code" "MA" output)

/-- `_matches_phases`: substring dispatch on the selected phase label. -/
def matchesPhases (output : String) (phs : List String) : Bool :=
  phs.any fun ph =>
    (isSubstring "Phase I" ph && searchKV "code" "P1" output) ||
    (isSubstring "Phase II" ph && searchKV "code" "P2" output) ||
    (isSubstring "Phase III" ph && searchKV "code" "P3" output) ||
    (isSubstring "Phase IV" ph && searchKV "code" "P4" output)

/-- `_matches_pharma_groups`: the selected label itself is used, escaped,
as the value of the group pattern. -/
def matchesPharmaGroups (output : String) (pgs : List String) : Bool :=
  pgs.any fun g => searchKV "group" g output

/-! ## Filters dictionary and apply_filters -/

/-- The filters dictionary passed to `apply_filters`: each category key is
either absent (`none`) or present with a list of selected labels.  The
routes only ever insert non-empty lists, but the service accepts any
dictionary. -/
structure Filters where
  study_types : Option (List String)
  phases : Option (List String)
  pharma_groups : Option (List String)
deriving Repr, DecidableEq

/-- Python truthiness of `filters.get(key)`: present and non-empty. -/
def optActive : Option (List String) → Bool
  | some l => !l.isEmpty
  | none => false

/-- Python truthiness of the whole dictionary: `not filters` holds exactly
when no key is present. -/
def Filters.isEmptyDict (fs : Filters) : Bool :=
  fs.study_types.isNone && fs.phases.isNone && fs.pharma_groups.isNone

/-- The empty filters dictionary. -/
def emptyFilters : Filters := ⟨none, none, none⟩

/-- Whether some category carries at least one selected label. -/
def anyActive (fs : Filters) : Bool :=
  optActive fs.study_types || optActive fs.phases || optActive fs.pharma_groups

/-- `_matches_filters`: logical AND across the categories that are present
and non-empty. -/
def matchesFilters (output : String) (fs : Filters) : Bool :=
  (!optActive fs.study_types || matchesStudyTypes output (fs.study_types.getD [])) &&
  (!optActive fs.phases || matchesPhases output (fs.phases.getD [])) &&
  (!optActive fs.pharma_groups || matchesPharmaGroups output (fs.pharma_groups.getD []))

/-- One row of the papers table.  Optional text columns are encoded as the
empty string when missing, matching `str(row.get(col, ""))` in the source. -/
structure Row where
  work_id : String
  title : String
  abstract : String
  doi : String
  authorships : String
  publication_year : Option Int
  output : String
deriving Repr, DecidableEq

/-- The per-row keep condition inside the `apply_filters` loop: the raw
blob must be non-empty and must satisfy every active category. -/
def rowPasses (fs : Filters) (r : Row) : Bool :=
  (!(r.output == "")) && matchesFilters r.output fs

/-- `apply_filters`: return the input unchanged when the frame is empty or
the dictionary is empty, otherwise keep the rows passing the loop test. -/
def applyFilters (rows : List Row) (fs : Filters) : List Row :=
  if rows.isEmpty || fs.isEmptyDict then rows else rows.filter (rowPasses fs)

/-! ## The labelled frame and apply_filters under pandas indexing

The loop in `apply_filters` iterates with iterrows, which yields the index
label of each row, and then selects with iloc, which reads those labels as
positions.  A frame fresh from read_sql carries the default range index,
where labels equal positions, and there a single application coincides
with the label-free `applyFilters` above; but the filtered result retains
the original labels of its rows, so a further application can feed a label
that is out of bounds as a position.  The definitions below keep the
labels explicit to capture this. -/

/-- A data frame over the papers table: each row paired with its index
label.  Fresh frames have labels 0, 1, 2, and so on in order; filtered
frames retain the labels of the rows they kept. -/
abbrev DFrame : Type := List (Nat × Row)

/-- Positional selection, df.iloc over a list of positions: the selected
rows keep their existing labels, and any position at or beyond the frame
length raises IndexError, modelled as no value. -/
def ilocSelect (df : DFrame) : List Nat → Option DFrame
  | [] => some []
  | p :: ps =>
    match df[p]?, ilocSelect df ps with
    | some r, some rest => some (r :: rest)
    | _, _ => none

/-- `apply_filters` on a labelled frame, faithful to the pandas indexing:
the kept index labels collected from iterrows are fed to positional iloc
selection, an empty kept list gives a fresh empty frame, and an
out-of-bounds position is the raised IndexError. -/
def applyFiltersDF (df : DFrame) (fs : Filters) : Option DFrame :=
  if df.isEmpty || fs.isEmptyDict then some df
  else
    let idxs := (df.filter fun lr => rowPasses fs lr.2).map Prod.fst
    if idxs.isEmpty then some [] else ilocSelect df idxs

/-! ## Data service: text cleaning and formatting -/

/-- One pass of the tag-removal regex sub: on seeing an opening angle
bracket, buffer characters until the first closing angle bracket and drop
the whole span; an opening bracket that is never closed is kept verbatim,
since the regex then has no match.  This reproduces the leftmost,
non-overlapping behaviour of re.sub on the tag pattern. -/
def removeTagsAux : Option (List Char) → List Char → List Char
  | none, [] => []
  | some buf, [] => '<' :: buf.reverse
  | none, c :: cs =>
    if c = '<' then removeTagsAux (some []) cs else c :: removeTagsAux none cs
  | some buf, c :: cs =>
    if c = '>' then removeTagsAux none cs else removeTagsAux (some (c :: buf)) cs

/-- Remove HTML-like tags, as the first step of `_clean_text`. -/
def removeTags (cs : List Char) : List Char := removeTagsAux none cs

/-- Python `text.split()`: the maximal runs of non-whitespace characters. -/
def pyTokens : List Char → List (List Char)
  | [] => []
  | [c] => if isPySpace c then [] else [[c]]
  | c :: d :: cs =>
    if isPySpace c then pyTokens (d :: cs)
    else
      match pyTokens (d :: cs) with
      | [] => [[c]]
      | t :: ts => if isPySpace d then [c] :: t :: ts else (c :: t) :: ts

/-- Python `str.strip()`: drop leading and trailing whitespace. -/
def pyStrip (cs : List Char) : List Char :=
  ((cs.dropWhile isPySpace).reverse.dropWhile isPySpace).reverse

/-- Join character-list tokens with single spaces. -/
def joinSpace (ts : List (List Char)) : List Char := List.intercalate [' '] ts

/-- `_clean_text`: remove tags, collapse whitespace runs to single spaces,
strip the ends. -/
def cleanText (s : String) : String :=
  String.mk (pyStrip (joinSpace (pyTokens (removeTags s.data))))

/-- Whether the most recently consumed character (head of the reversed
accumulator) is a sentence terminator. -/
def lastIsSentEnd : List Char → Bool
  | c :: _ => c == '.' || c == '!' || c == '?'
  | [] => false

/-- Sentence splitter: split points are runs of spaces preceded by one of
the three terminator characters, the lookbehind form of the regex in
`_truncate_abstract`.  `acc` holds the current part reversed and `inSep`
records that a separator run is being consumed. -/
def splitSB (acc : List Char) (inSep : Bool) : List Char → List (List Char)
  | [] => [acc.reverse]
  | c :: cs =>
    if inSep && c == ' ' then splitSB acc true cs
    else if c == ' ' && lastIsSentEnd acc then acc.reverse :: splitSB [] true cs
    else splitSB (c :: acc) false cs

/-- Split a cleaned character list into sentence parts. -/
def splitSentencesL (cs : List Char) : List (List Char) := splitSB [] false cs

/-- `_truncate_abstract`: empty abstracts give no value; otherwise clean,
split into sentences, and keep only the first three with an ellipsis when
more existed. -/
def truncateAbstract (a : String) : Option String :=
  if a = "" then none
  else
    if (splitSentencesL (cleanText a).data).length ≤ 3 then some (cleanText a)
    else some (String.mk
      (joinSpace ((splitSentencesL (cleanText a).data).take 3) ++ "...".data))

/-- Python `raw.split(";")`: split on every semicolon, keeping empty
parts. -/
def splitOnSemi : List Char → List (List Char)
  | [] => [[]]
  | c :: cs =>
    match splitOnSemi cs with
    | [] => if c = ';' then [[], []] else [[c]]
    | p :: ps => if c = ';' then [] :: p :: ps else (c :: p) :: ps

/-- Join character-list names with a comma and a space. -/
def joinCommaSpace (ts : List (List Char)) : List Char :=
  List.intercalate (',' :: ' ' :: []) ts

/-- The length cap from `_parse_authors`: over 200 characters, keep the
first 197 and append the ellipsis. -/
def capAuthors (s : List Char) : String :=
  if s.length > 200 then String.mk (s.take 197 ++ "...".data) else String.mk s

/-- `_parse_authors`: no value for an empty input; split a semicolon list
into trimmed non-empty names rejoined with a comma and a space, otherwise
pass the string through; finally cap the length. -/
def parseAuthors (raw : String) : Option String :=
  if raw = "" then none
  else if raw.data.contains ';' then
    some (capAuthors (joinCommaSpace
      (((splitOnSemi raw.data).map pyStrip).filter fun t => !t.isEmpty)))
  else
    some (capAuthors raw.data)

/-! ## Filter options (get_filter_options) -/

/-- The pagination block returned by `_create_paginated_response`. -/
structure Pagination where
  page : Nat
  limit : Nat
  total : Nat
  total_pages : Nat
  has_next : Bool
  has_previous : Bool
deriving Repr, DecidableEq

/-- The pagination block of `_create_paginated_response`: an empty frame
returns the hard-coded all-false block; otherwise total_pages is the
ceiling of total over limit and the two flags compare the page number
against it.  Ceiling division on naturals models math.ceil on the exact
quotient. -/
def createPagination (total page limit : Nat) : Pagination :=
  if total = 0 then ⟨page, limit, 0, 0, false, false⟩
  else
    ⟨page, limit, total, (total + limit - 1) / limit,
     decide (page < (total + limit - 1) / limit), decide (page > 1)⟩

/-- The body of POST /papers/filter, including paging fields. -/
structure FilterRequest where
  study_types : List String
  phases : List String
  pharma_groups : List String
  page : Nat
  limit : Nat
deriving Repr, DecidableEq

/-- The dictionary comprehension in `filter_papers`: keep only the
non-empty selection lists, dropping the paging fields. -/
def buildFilters (req : FilterRequest) : Filters :=
  ⟨if req.study_types.isEmpty then none else some req.study_types,
   if req.phases.isEmpty then none else some req.phases,
   if req.pharma_groups.isEmpty then none else some req.pharma_groups⟩

/-- The row set GET /papers paginates. -/
def getPapersSet (rows : List Row) : List Row := rows

/-- The row set POST /papers/filter paginates: the fetched rows filtered
through the selection built from the request. -/
def filterPapersSet (rows : List Row) (req : FilterRequest) : List Row :=
  applyFilters rows (buildFilters req)

/-- The backing store as seen by the data service: either reachable with
its query result rows, or unreachable.  The SQL query itself (null
filtering and ordering) runs in the external database and is part of the
rows carried by the reachable state. -/
inductive Store where
  | up : List Row → Store
  | down : Store
deriving Repr, DecidableEq

/-- The rows present in the store, empty when unreachable. -/
def storeRows : Store → List Row
  | .up rows => rows
  | .down => []

/-- `get_all_papers`: the query result, or an empty frame when the
connection raises. -/
def getAllPapers : Store → List Row
  | .up rows => rows
  | .down => []

/-- `get_paper_by_id`: the first row whose work_id matches, or no value
when nothing matches or the connection raises. -/
def getPaperById (s : Store) (id : String) : Option Row :=
  match s with
  | .down => none
  | .up rows => (rows.filter fun r => r.work_id == id).head?

/-- The display record produced by `format_paper`. -/
structure Paper where
  work_id : String
  title : String
  abstract : Option String
  doi : Option String
  authors : Option String
  publication_year : Option Int
  authorships : Option String
  output : Option String
deriving Repr, DecidableEq

/-- `format_paper` for the two view modes. -/
def formatPaper (r : Row) (detail : Bool) : Paper :=
  { work_id := r.work_id
    title := cleanText r.title
    doi := if r.doi = "" then none else some r.doi
    authors := parseAuthors r.authorships
    publication_year := r.publication_year.bind fun y => if y = 0 then none else some y
    abstract := if detail then some (cleanText r.abstract) else truncateAbstract r.abstract
    authorships := if detail then (if r.authorships = "" then none else some r.authorships) else none
    output := if detail then (if r.output = "" then none else some r.output) else none }

/-- Outcome of GET /papers/id. -/
inductive IdRouteResult where
  | found : Paper → IdRouteResult
  | notFound : IdRouteResult
deriving Repr

/-- HTTP status of an id-route outcome. -/
def idRouteStatus : IdRouteResult → Nat
  | .found _ => 200
  | .notFound => 404

/-- The handler `get_paper_by_id` in routes: a missing row raises the 404
response, a present row is formatted in detail view. -/
def getPaperRoute (s : Store) (id : String) : IdRouteResult :=
  match getPaperById s id with
  | none => .notFound
  | some r => .found (formatPaper r true)

-- Sanity checks on the data-service embedding.
example : cleanText "a<b>c  d" = "ac d" := by decide
example : cleanText " <x>hi </p> there " = "hi there" := by decide
example : splitSentencesL ("One. Two! Three? Four." : String).data
    = (["One.", "Two!", "Three?", "Four."].map String.data) := by decide
example : truncateAbstract "One. Two. Three. Four. Five." =
    some "One. Two. Three...." := by decide
example : truncateAbstract "One. Two. Three." = some "One. Two. Three." := by decide
example : parseAuthors "Smith J; Doe A; " = some "Smith J, Doe A" := by decide
example : parseAuthors "" = none := by decide

-- Sanity checks on concrete blobs (quote styles, no cross-code matches).
example : searchKV "code" "RCT" "\x27code\x27: \x27RCT\x27" = true := by decide
example : searchKV "code" "RCT" "\x22code\x22: \x22RCT\x22" = true := by decide
example : searchKV "code" "RCT" "\x27code\x27 : \x27RCT\x27" = false := by decide
example : searchKV "code" "CS" "\x27code\x27: \x27CCS\x27" = false := by decide
example : extractPhases "\x27code\x27: \x27P1\x27" = ["Phase I (P1)"] := by decide
example : matchesPhases "\x27code\x27: \x27P1\x27" ["Phase II (P2)"] = true := by decide

/-! ## Sample data used by witnesses and counterexamples -/

/-- A row whose blob carries the phase-one code. -/
def sampleRowP1 : Row := ⟨"W1", "T", "A", "", "", none, "\x27code\x27: \x27P1\x27"⟩

/-- A row with an empty raw classification blob. -/
def sampleRowEmpty : Row := ⟨"W2", "T2", "A2", "", "", none, ""⟩

/-- A row whose blob carries the phase-two code. -/
def sampleRowP2 : Row := ⟨"W3", "T3", "A3", "", "", none, "\x27code\x27: \x27P2\x27"⟩

/-- A selection with exactly one phase label. -/
def samplePhaseFilter : Filters := ⟨none, some ["Phase II (P2)"], none⟩

/-! ## Helper lemmas -/

/-- Branch-free description of `applyFilters`: the empty-frame early
return coincides with filtering the empty list. -/
theorem applyFilters_eq (rows : List Row) (fs : Filters) :
    applyFilters rows fs =
      if fs.isEmptyDict = true then rows else rows.filter (rowPasses fs) := by
  cases rows with
  | nil => simp [applyFilters]
  | cons r rs => simp [applyFilters, List.isEmpty]

/-- A selection with an active category is a non-empty dictionary. -/
theorem anyActive_not_empty {fs : Filters} (h : anyActive fs = true) :
    fs.isEmptyDict = false := by
  rcases fs with ⟨st, ph, pg⟩
  cases st <;> cases ph <;> cases pg <;>
    simp_all [anyActive, optActive, Filters.isEmptyDict]

/-- C1: the claim states that passing the filter with a single selected
label coincides with the extractor deriving that label; the code violates
this for phase labels.  A blob carrying only the phase-one code passes the
filter for the selected label "Phase II (P2)", because the dispatch tests
the substring "Phase I" against the label and that substring also occurs
in "Phase II (P2)"; the extractor derives only "Phase I (P1)" from the
same blob. -/
theorem filter_extractor_c1_bug :
    matchesPhases "\x27code\x27: \x27P1\x27" ["Phase II (P2)"] = true ∧
    extractPhases "\x27code\x27: \x27P1\x27" = ["Phase I (P1)"] ∧
    "Phase II (P2)" ∉ extractPhases "\x27code\x27: \x27P1\x27" ∧
    applyFilters [sampleRowP1] samplePhaseFilter = [sampleRowP1] := by decide

/-- C3 counterexample: at an empty result set with page 2 and limit 10
(both valid), the pagination block reports has_previous as false although
the page number exceeds 1, so the claimed biconditional fails. -/
theorem pagination_c3_counterexample :
    ¬ (((createPagination 0 2 10).has_previous = true) ↔ 2 > 1) := by decide

/-- C3 amended: for valid page and limit, total_pages is the ceiling of
total over limit and has_next is true exactly when page precedes it; but
has_previous is true exactly when page exceeds 1 AND the result set is
non-empty, since the empty branch hard-codes all-false flags. -/
theorem pagination_c3_amended (total page limit : Nat)
    (hp : 1 ≤ page) (hl1 : 1 ≤ limit) (hl2 : limit ≤ 100) :
    (createPagination total page limit).total_pages = (total + limit - 1) / limit ∧
    ((createPagination total page limit).has_next = true ↔
       page < (createPagination total page limit).total_pages) ∧
    ((createPagination total page limit).has_previous = true ↔
       (page > 1 ∧ 0 < total)) := by
  unfold createPagination
  by_cases h : total = 0
  · subst h
    refine ⟨?_, by simp, by simp⟩
    simp
    exact (Nat.div_eq_of_lt (by omega)).symm
  · have ht : 0 < total := Nat.pos_of_ne_zero h
    simp [h, ht, decide_eq_true_eq]

/-- C3 witness: the amended pagination facts at total 7, page 2, limit 3. -/
theorem pagination_c3_witness :
    (createPagination 7 2 3).total_pages = (7 + 3 - 1) / 3 ∧
    ((createPagination 7 2 3).has_next = true ↔
       2 < (createPagination 7 2 3).total_pages) ∧
    ((createPagination 7 2 3).has_previous = true ↔ (2 > 1 ∧ 0 < 7)) :=
  pagination_c3_amended 7 2 3 (by decide) (by decide) (by decide)

/-- C4: a row with an empty raw blob is excluded whenever some category
of the selection is non-empty, and the whole frame is returned untouched
when the selection dictionary is empty. -/
theorem apply_filters_c4 (rows : List Row) (fs : Filters) (r : Row)
    (hmem : r ∈ rows) (hout : r.output = "") :
    (anyActive fs = true → r ∉ applyFilters rows fs) ∧
    (fs = emptyFilters → applyFilters rows fs = rows) := by
  constructor
  · intro ha hr
    rw [applyFilters_eq, anyActive_not_empty ha] at hr
    simp only [Bool.false_eq_true, if_false, List.mem_filter] at hr
    simp [rowPasses, hout] at hr
  · intro he
    subst he
    rw [applyFilters_eq]
    simp [emptyFilters, Filters.isEmptyDict]

/-- C4 witness: the two parts at a one-row frame whose row has an empty
blob, with a single selected phase label and with the empty selection. -/
theorem apply_filters_c4_witness :
    sampleRowEmpty ∉ applyFilters [sampleRowEmpty] samplePhaseFilter ∧
    applyFilters [sampleRowEmpty] emptyFilters = [sampleRowEmpty] :=
  ⟨(apply_filters_c4 [sampleRowEmpty] samplePhaseFilter sampleRowEmpty
      (by decide) (by decide)).1 (by decide),
   (apply_filters_c4 [sampleRowEmpty] emptyFilters sampleRowEmpty
      (by decide) (by decide)).2 rfl⟩

/-- C5: for a non-empty abstract already in cleaned form, a five-sentence
abstract is truncated to its first three sentences joined by single spaces
with the ellipsis appended, and an abstract of at most three sentences is
returned unchanged. -/
theorem truncate_abstract_c5 (a : String) (h0 : a ≠ "") (hclean : cleanText a = a) :
    ((splitSentencesL a.data).length = 5 →
       truncateAbstract a =
         some (String.mk (joinSpace ((splitSentencesL a.data).take 3) ++ "...".data))) ∧
    ((splitSentencesL a.data).length ≤ 3 → truncateAbstract a = some a) := by
  constructor
  · intro h5
    unfold truncateAbstract
    rw [if_neg h0, hclean, h5]
    simp
  · intro h3
    unfold truncateAbstract
    rw [if_neg h0, hclean, if_pos h3]

/-- C5 witness: the two truncation behaviours at a five-sentence and a
two-sentence cleaned abstract. -/
theorem truncate_abstract_c5_witness :
    truncateAbstract "One. Two. Three. Four. Five." =
      some (String.mk (joinSpace
        ((splitSentencesL ("One. Two. Three. Four. Five." : String).data).take 3)
        ++ "...".data)) ∧
    truncateAbstract "Hello there. Bye." = some "Hello there. Bye." :=
  ⟨(truncate_abstract_c5 "One. Two. Three. Four. Five."
      (by decide) (by decide)).1 (by decide),
   (truncate_abstract_c5 "Hello there. Bye."
      (by decide) (by decide)).2 (by decide)⟩

/-- C6: a raw authorship string with semicolons is split, trimmed,
purged of empty names and rejoined with comma-space before the 200
character cap; one without semicolons passes through to the cap; the
sample input normalizes as stated; and a 250 character semicolon-free
string is cut to its first 197 characters plus the ellipsis. -/
theorem parse_authors_c6 (raw : String) :
    (raw.data.contains ';' = true →
       parseAuthors raw = some (capAuthors (joinCommaSpace
         (((splitOnSemi raw.data).map pyStrip).filter fun t => !t.isEmpty)))) ∧
    (raw ≠ "" → raw.data.contains ';' = false →
       parseAuthors raw = some (capAuthors raw.data)) ∧
    parseAuthors "Smith J; Doe A; " = some "Smith J, Doe A" ∧
    (raw.data.length = 250 → raw.data.contains ';' = false →
       parseAuthors raw = some (String.mk (raw.data.take 197 ++ "...".data))) := by
  refine ⟨?_, ?_, by decide, ?_⟩
  · intro hc
    have hne : raw ≠ "" := by
      intro h; subst h; simp at hc
    unfold parseAuthors
    rw [if_neg hne, if_pos hc]
  · intro hne hc
    unfold parseAuthors
    rw [if_neg hne, if_neg (show ¬(raw.data.contains ';' = true) by rw [hc]; simp)]
  · intro hlen hc
    have hne : raw ≠ "" := by
      intro h; subst h; simp at hlen
    unfold parseAuthors
    rw [if_neg hne, if_neg (show ¬(raw.data.contains ';' = true) by rw [hc]; simp)]
    unfold capAuthors
    rw [if_pos (by rw [hlen]; omega)]

set_option maxRecDepth 8000 in
/-- C6 witness: the three conditional parts at concrete inputs, including
a 250 character author string. -/
theorem parse_authors_c6_witness :
    parseAuthors "Smith J; Doe A; " = some (capAuthors (joinCommaSpace
      (((splitOnSemi ("Smith J; Doe A; " : String).data).map pyStrip).filter
        fun t => !t.isEmpty))) ∧
    parseAuthors "Jones K" = some (capAuthors ("Jones K" : String).data) ∧
    parseAuthors (String.mk (List.replicate 250 'a')) =
      some (String.mk ((String.mk (List.replicate 250 'a')).data.take 197
        ++ "...".data)) :=
  ⟨(parse_authors_c6 "Smith J; Doe A; ").1 (by decide),
   (parse_authors_c6 "Jones K").2.1 (by decide) (by decide),
   (parse_authors_c6 (String.mk (List.replicate 250 'a'))).2.2.2
     (by decide) (by decide)⟩

/-- C7: the claim states that applying the same selection twice yields
the same rows as applying it once; the code violates it.  On a fresh
two-row frame with labels 0 and 1 where only the second row passes, the
first application keeps that row with its original label 1, and the
second application feeds label 1 into positional selection on the one-row
result, raising IndexError instead of returning the same rows.  The slip
is reading iterrows index labels as iloc positions; label-based selection
would make the stated property hold. -/
theorem apply_filters_c7_not_idempotent :
    applyFiltersDF [(0, sampleRowEmpty), (1, sampleRowP2)] samplePhaseFilter
      = some [(1, sampleRowP2)] ∧
    (applyFiltersDF [(0, sampleRowEmpty), (1, sampleRowP2)]
        samplePhaseFilter).bind
      (fun dfiltered => applyFiltersDF dfiltered samplePhaseFilter) = none := by
  decide

/-- C8: the row set POST /papers/filter paginates under an all-empty
selection is exactly the row set GET /papers paginates. -/
theorem filter_route_c8 (rows : List Row) (page limit : Nat) :
    filterPapersSet rows ⟨[], [], [], page, limit⟩ = getPapersSet rows := by
  simp [filterPapersSet, getPapersSet, buildFilters, applyFilters,
    Filters.isEmptyDict, List.isEmpty]

/-- C9: when the store is unreachable, fetching all papers yields the
empty frame and fetching by id yields no row; and for any store state, an
id matching no stored row makes the id route answer 404, never 500. -/
theorem fetch_c9 :
    (∀ id : String, getAllPapers Store.down = [] ∧ getPaperById Store.down id = none) ∧
    (∀ (s : Store) (id : String), (∀ r ∈ storeRows s, r.work_id ≠ id) →
       idRouteStatus (getPaperRoute s id) = 404 ∧
       idRouteStatus (getPaperRoute s id) ≠ 500) := by
  constructor
  · exact fun id => ⟨rfl, rfl⟩
  · intro s id h
    have hnone : getPaperById s id = none := by
      cases s with
      | down => rfl
      | up rows =>
        simp only [getPaperById, List.head?_eq_none_iff]
        rw [List.filter_eq_nil_iff]
        intro r hr
        simpa using h r hr
    simp [getPaperRoute, hnone, idRouteStatus]

/-- C9 witness: the unreachable-store facts and a 404 outcome for an
unknown id against a one-row store. -/
theorem fetch_c9_witness :
    (getAllPapers Store.down = [] ∧ getPaperById Store.down "W9" = none) ∧
    idRouteStatus (getPaperRoute (Store.up [sampleRowP1]) "W9") = 404 :=
  ⟨fetch_c9.1 "W9", (fetch_c9.2 (Store.up [sampleRowP1]) "W9" (by decide)).1⟩

/-- C10: the filtered rows form a subsequence of the input rows (hence a
subset, in the same relative order, with multiplicities bounded by the
input), and filtering preserves the absence of duplicate rows.  The
embedding is a pure function of the input list, so the input itself is
never modified, matching the copy the source takes. -/
theorem apply_filters_c10 (rows : List Row) (fs : Filters) :
    (applyFilters rows fs).Sublist rows ∧
    (rows.Nodup → (applyFilters rows fs).Nodup) := by
  have hsub : (applyFilters rows fs).Sublist rows := by
    rw [applyFilters_eq]
    cases h : fs.isEmptyDict
    · simp only [Bool.false_eq_true, if_false]
      exact List.filter_sublist rows
    · simp
  exact ⟨hsub, fun hnd => hsub.nodup hnd⟩

/-- C10 witness: subsequence and duplicate-freedom at a concrete two-row
frame and a concrete selection. -/
theorem apply_filters_c10_witness :
    (applyFilters [sampleRowP1, sampleRowEmpty] samplePhaseFilter).Sublist
      [sampleRowP1, sampleRowEmpty] ∧
    (applyFilters [sampleRowP1, sampleRowEmpty] samplePhaseFilter).Nodup :=
  ⟨(apply_filters_c10 [sampleRowP1, sampleRowEmpty] samplePhaseFilter).1,
   (apply_filters_c10 [sampleRowP1, sampleRowEmpty] samplePhaseFilter).2
     (by decide)⟩

end SLR
